import Mathlib

/-!
Verification of chain/chain/src/gas_limit_adjustment.rs, the adaptive
gas-limit controller of a sharded blockchain node.

Embedding conventions:
* Values of type u64 / u128 are modelled as Nat.  The decrease step
  g - g / F cannot underflow a u64 because g / F ≤ g.  The increase step
  g + g / F, however, overflows a u64 for every g at or above
  ceil(2 ^ 64 * 1000 / 1001): a release build wraps — at
  g = 18428315757951600016 the u64 sum is exactly 2 ^ 64, wrapping to 0 —
  and a build with overflow checks aborts; either way the source never
  returns the unbounded sum there.  The increase step is therefore modelled
  with the explicit wrap of a release build, reducing modulo 2 ^ 64.
* Quotients a as f64 / b as f64 are modelled by fdiv : Nat → Nat → FloatVal,
  which makes the IEEE special cases explicit (0/0 is NaN, a/0 is +infinity for
  a > 0) and idealizes the finite case as the exact rational a / b; comparisons
  with the threshold literals are exact rational comparisons.  Division of f64
  values is correctly rounded, and at every concrete comparison settled below
  the distance to the threshold is many orders of magnitude larger than one
  ulp, so the idealization agrees with the f64 computation there.
* Rust aborts (the explicit abort in get_bucket, expect, assert) are modelled
  as distinguished error values: get_bucket returns a GetBucketResult and the
  histogram-based deciders return Option Nat, none meaning the call aborts.
* The helper get_apply_chunk_time_histogram reads a process-global prometheus
  registry (external to this module); the deciders here take the Histogram it
  would return as an explicit argument, as the design notes of the spec
  prescribe.
-/

/-- A prometheus histogram bucket, with accessors get_upper_bound and
get_cumulative_count. -/
structure Bucket where
  upper_bound : ℚ
  cumulative_count : Nat
deriving Repr, DecidableEq

/-- A prometheus histogram, with accessors get_bucket (the ordered bucket
list) and get_sample_count. -/
structure Histogram where
  bucket : List Bucket
  sample_count : Nat
deriving Repr, DecidableEq

/-- Constant `GAS_LIMIT_ADJUSTMENT_INTERVAL: u64 = 10`. -/
def GAS_LIMIT_ADJUSTMENT_INTERVAL : Nat := 10

/-- Modelled from the spec: `GAS_LIMIT_ADJUSTMENT_FACTOR` is imported from
`crate::validate`, whose source file is not among the provided sources.  The
spec calls it the external AdjustmentFactor shared with validation logic and
fixes AdjustmentFactor = 1000 in its worked scenarios. -/
def GAS_LIMIT_ADJUSTMENT_FACTOR : Nat := 1000

/-- Number of u64 values, 2 ^ 64: u64 addition wraps modulo this in a release
build. -/
def U64_SIZE : Nat := 2 ^ 64

/-- Constant `NOOP_CHUNK_APPLY_TIME: f64 = 0.5`. -/
def NOOP_CHUNK_APPLY_TIME : ℚ := 5 / 10

/-- Constant `TARGET_CHUNK_APPLY_TIME: f64 = 1.0`. -/
def TARGET_CHUNK_APPLY_TIME : ℚ := 1

/-- Constant `TARGET_BACKOFF: f64 = 0.05`. -/
def TARGET_BACKOFF : ℚ := 5 / 100

/-- Constant `LOAD_INDICATION_APPLY_TIME: f64 = 0.5`. -/
def LOAD_INDICATION_APPLY_TIME : ℚ := 5 / 10

/-- Constant `THRESHOLD_NOOP: f64 = 0.5`. -/
def THRESHOLD_NOOP : ℚ := 5 / 10

/-- Constant `THRESHOLD_INCREASE: f64 = 0.99`. -/
def THRESHOLD_INCREASE : ℚ := 99 / 100

/-- Constant `THRESHOLD_DECREASE: f64 = 0.99`. -/
def THRESHOLD_DECREASE : ℚ := 99 / 100

/-- Machine epsilon of f64: `f64::EPSILON` is 2 ^ (-52). -/
def f64_EPSILON : ℚ := 1 / 2 ^ 52

/-- Value of an f64 expression as this module can produce it: a finite value
(idealized as an exact rational), positive infinity, or NaN. -/
inductive FloatVal where
  | nan
  | inf
  | val (q : ℚ)
deriving Repr, DecidableEq

/-- Quotient `a as f64 / b as f64` for u64 operands: 0/0 is NaN, a/0 is
positive infinity for a > 0, otherwise the exact quotient. -/
def fdiv (a b : Nat) : FloatVal :=
  if b = 0 then (if a = 0 then .nan else .inf) else .val ((a : ℚ) / (b : ℚ))

/-- Comparison x < t of a computed ratio x against a finite threshold literal
t: false on NaN, false on positive infinity. -/
def FloatVal.lt : FloatVal → ℚ → Bool
  | .nan, _ => false
  | .inf, _ => false
  | .val q, t => q < t

/-- Comparison x > t: false on NaN, true on positive infinity. -/
def FloatVal.gt : FloatVal → ℚ → Bool
  | .nan, _ => false
  | .inf, _ => true
  | .val q, t => t < q

/-- Comparison x >= t: false on NaN, true on positive infinity. -/
def FloatVal.ge : FloatVal → ℚ → Bool
  | .nan, _ => false
  | .inf, _ => true
  | .val q, t => t ≤ q

/-- Outcome of get_bucket, with each Rust abort path a distinguished value:
unsupportedThreshold is the final match arm that aborts with the message
"can not handle arbitrary upper bounds yet" (quoting the source up to an
apostrophe), missingBucket the expect with message "histogram should have more
buckets", and wrongBucket the trailing assertion with message
"got wrong bucket: want upper bound of ... but got ...". -/
inductive GetBucketResult where
  | ok (b : Bucket)
  | unsupportedThreshold
  | missingBucket
  | wrongBucket
deriving Repr, DecidableEq

/-- The index selection match inside get_bucket: the four guards of the form
`x if x.abs() - BOUND < f64::EPSILON => IDX`, in source order, with none for
the final abort arm. -/
def bucketIdx (upper_bound : ℚ) : Option Nat :=
  if |upper_bound| - 5 / 100 < f64_EPSILON then some 2
  else if |upper_bound| - 5 / 10 < f64_EPSILON then some 5
  else if |upper_bound| - 1 < f64_EPSILON then some 6
  else if |upper_bound| - 13 / 10 < f64_EPSILON then some 7
  else none

/-- Embedding of `fn get_bucket(histogram: &Histogram, upper_bound: f64)`:
select the hardcoded index, fetch the bucket at that position, then assert
`got_upper_bound.abs() - upper_bound < f64::EPSILON`. -/
def get_bucket (histogram : Histogram) (upper_bound : ℚ) : GetBucketResult :=
  match bucketIdx upper_bound with
  | none => .unsupportedThreshold
  | some idx =>
    match histogram.bucket.get? idx with
    | none => .missingBucket
    | some bucket =>
      if |bucket.upper_bound| - upper_bound < f64_EPSILON then .ok bucket
      else .wrongBucket

/-- Embedding of `fn determine_new_gas_limit(gas_limit, shard_id, height)`
(Strategy A).  The histogram the global registry would yield for shard_id is
passed explicitly; none models an abort inside get_bucket. -/
def determine_new_gas_limit (gas_limit : Nat) (histogram : Histogram)
    (height : Nat) : Option Nat :=
  if height % GAS_LIMIT_ADJUSTMENT_INTERVAL ≠ 0 then
    -- Avoid too frequent adjustments.
    some gas_limit
  else
    match get_bucket histogram NOOP_CHUNK_APPLY_TIME with
    | .ok bucket_noop =>
      match get_bucket histogram TARGET_CHUNK_APPLY_TIME with
      | .ok bucket =>
        let ratio_noop := fdiv bucket_noop.cumulative_count histogram.sample_count
        let ratio_within_target := fdiv bucket.cumulative_count histogram.sample_count
        some
          (if ratio_within_target.lt THRESHOLD_DECREASE then
            gas_limit - gas_limit / GAS_LIMIT_ADJUSTMENT_FACTOR
          else if ratio_noop.lt THRESHOLD_NOOP then
            if ratio_within_target.ge THRESHOLD_INCREASE then
              (gas_limit + gas_limit / GAS_LIMIT_ADJUSTMENT_FACTOR) % U64_SIZE
            else gas_limit
          else gas_limit)
      | _ => none
    | _ => none

/-- Embedding of `fn determine_new_gas_limit_2(gas_limit, shard_id,
delayed_receipt_gas)` (Strategy B); the histogram is passed explicitly, none
models an abort inside get_bucket. -/
def determine_new_gas_limit_2 (gas_limit : Nat) (histogram : Histogram)
    (delayed_receipt_gas : Nat) : Option Nat :=
  match get_bucket histogram TARGET_CHUNK_APPLY_TIME with
  | .ok target_bucket =>
    let ratio_in_target := fdiv target_bucket.cumulative_count histogram.sample_count
    some
      (if ratio_in_target.lt THRESHOLD_DECREASE then
        gas_limit - gas_limit / GAS_LIMIT_ADJUSTMENT_FACTOR
      else if ratio_in_target.gt THRESHOLD_INCREASE ∧ delayed_receipt_gas > 0 then
        (gas_limit + gas_limit / GAS_LIMIT_ADJUSTMENT_FACTOR) % U64_SIZE
      else gas_limit)
  | _ => none

/-- Embedding of `fn determine_new_gas_limit_3(gas_limit, delayed_receipt_gas,
last_apply_time)` (Strategy C).  Here last_apply_secs is
`last_apply_time.as_secs_f64()`, a non-negative duration in seconds idealized
as an exact rational. -/
def determine_new_gas_limit_3 (gas_limit : Nat) (delayed_receipt_gas : Nat)
    (last_apply_secs : ℚ) : Nat :=
  if last_apply_secs > TARGET_CHUNK_APPLY_TIME then
    gas_limit - gas_limit / GAS_LIMIT_ADJUSTMENT_FACTOR
  else if last_apply_secs > LOAD_INDICATION_APPLY_TIME ∧
      last_apply_secs ≤ TARGET_CHUNK_APPLY_TIME - TARGET_BACKOFF then
    if delayed_receipt_gas > 0 then
      (gas_limit + gas_limit / GAS_LIMIT_ADJUSTMENT_FACTOR) % U64_SIZE
    else gas_limit
  else gas_limit

/-- Concrete standard-layout histogram realizing Scenario 2 of the spec:
total = 100 samples, 40 at or below 0.5s, 99 at or below 1.0s; positions
2, 5, 6, 7 carry the upper bounds 0.05, 0.5, 1.0, 1.3 as laid out by
try_create_histogram_vec. -/
def scenarioHistogram : Histogram :=
  { bucket := [⟨1/100, 0⟩, ⟨2/100, 0⟩, ⟨5/100, 0⟩, ⟨1/10, 5⟩, ⟨2/10, 10⟩,
               ⟨5/10, 40⟩, ⟨1, 99⟩, ⟨13/10, 100⟩],
    sample_count := 100 }

/-- Standard-layout histogram holding no samples at all. -/
def emptyHistogram : Histogram :=
  { bucket := [⟨1/100, 0⟩, ⟨2/100, 0⟩, ⟨5/100, 0⟩, ⟨1/10, 0⟩, ⟨2/10, 0⟩,
               ⟨5/10, 0⟩, ⟨1, 0⟩, ⟨13/10, 0⟩],
    sample_count := 0 }

/-- Standard-layout histogram whose 100 samples all fall at or below 0.05s:
the in-target ratio is 100/100 = 1, strictly above both thresholds. -/
def saturatedHistogram : Histogram :=
  { bucket := [⟨1/100, 100⟩, ⟨2/100, 100⟩, ⟨5/100, 100⟩, ⟨1/10, 100⟩,
               ⟨2/10, 100⟩, ⟨5/10, 100⟩, ⟨1, 100⟩, ⟨13/10, 100⟩],
    sample_count := 100 }

/-- A decrease step keeps a positive gas limit positive, because the quotient
by the adjustment factor (1000 > 1) is strictly smaller than the gas limit. -/
theorem sub_step_pos (g : Nat) (hg : 0 < g) :
    0 < g - g / GAS_LIMIT_ADJUSTMENT_FACTOR := by
  have h : g / GAS_LIMIT_ADJUSTMENT_FACTOR < g :=
    Nat.div_lt_self hg (by norm_num [GAS_LIMIT_ADJUSTMENT_FACTOR])
  omega

/-- Every value Strategy A returns is the input, the input minus one step, or
the input plus one step. -/
theorem determine_new_gas_limit_outcomes (g : Nat) (hist : Histogram) (height r : Nat)
    (hr : determine_new_gas_limit g hist height = some r) :
    r = g ∨ r = g - g / GAS_LIMIT_ADJUSTMENT_FACTOR ∨
      r = (g + g / GAS_LIMIT_ADJUSTMENT_FACTOR) % U64_SIZE := by
  unfold determine_new_gas_limit at hr
  split at hr
  · exact Or.inl (Option.some.inj hr).symm
  · split at hr
    · split at hr
      · have h := Option.some.inj hr
        subst h
        split
        · exact Or.inr (Or.inl rfl)
        · split
          · split
            · exact Or.inr (Or.inr rfl)
            · exact Or.inl rfl
          · exact Or.inl rfl
      all_goals simp_all
    all_goals simp_all

/-- Every value Strategy B returns is the input, the input minus one step, or
the input plus one step. -/
theorem determine_new_gas_limit_2_outcomes (g : Nat) (hist : Histogram) (delayed r : Nat)
    (hr : determine_new_gas_limit_2 g hist delayed = some r) :
    r = g ∨ r = g - g / GAS_LIMIT_ADJUSTMENT_FACTOR ∨
      r = (g + g / GAS_LIMIT_ADJUSTMENT_FACTOR) % U64_SIZE := by
  unfold determine_new_gas_limit_2 at hr
  split at hr
  · have h := Option.some.inj hr
    subst h
    split
    · exact Or.inr (Or.inl rfl)
    · split
      · exact Or.inr (Or.inr rfl)
      · exact Or.inl rfl
  all_goals simp_all

/-- Every value Strategy C returns is the input, the input minus one step, or
the input plus one step. -/
theorem determine_new_gas_limit_3_outcomes (g delayed : Nat) (secs : ℚ) :
    determine_new_gas_limit_3 g delayed secs = g ∨
      determine_new_gas_limit_3 g delayed secs = g - g / GAS_LIMIT_ADJUSTMENT_FACTOR ∨
      determine_new_gas_limit_3 g delayed secs
        = (g + g / GAS_LIMIT_ADJUSTMENT_FACTOR) % U64_SIZE := by
  unfold determine_new_gas_limit_3
  split
  · exact Or.inr (Or.inl rfl)
  · split
    · split
      · exact Or.inr (Or.inr rfl)
      · exact Or.inl rfl
    · exact Or.inl rfl

/-- A bucket returned by get_bucket is an element of the bucket list of the
histogram it was read from. -/
theorem get_bucket_ok_mem {hist : Histogram} {u : ℚ} {b : Bucket}
    (h : get_bucket hist u = .ok b) : b ∈ hist.bucket := by
  unfold get_bucket at h
  split at h
  · simp at h
  · split at h
    · simp at h
    · split at h
      · injection h with hb
        subst hb
        exact List.get?_mem (by assumption)
      · simp at h

/-- The first one-sided guard fires at 0.05, selecting index 2. -/
theorem bucketIdx_005 : bucketIdx (5/100) = some 2 := by
  unfold bucketIdx f64_EPSILON
  rw [abs_of_nonneg (by norm_num : (0:ℚ) ≤ 5/100)]
  norm_num

/-- The second one-sided guard fires at 0.5, selecting index 5. -/
theorem bucketIdx_half : bucketIdx (5/10) = some 5 := by
  unfold bucketIdx f64_EPSILON
  rw [abs_of_nonneg (by norm_num : (0:ℚ) ≤ 5/10)]
  norm_num

/-- The third one-sided guard fires at 1.0, selecting index 6. -/
theorem bucketIdx_one : bucketIdx 1 = some 6 := by
  unfold bucketIdx f64_EPSILON
  rw [abs_of_nonneg (by norm_num : (0:ℚ) ≤ 1)]
  norm_num

/-- The fourth one-sided guard fires at 1.3, selecting index 7. -/
theorem bucketIdx_13 : bucketIdx (13/10) = some 7 := by
  unfold bucketIdx f64_EPSILON
  rw [abs_of_nonneg (by norm_num : (0:ℚ) ≤ 13/10)]
  norm_num

/-- At the unsupported bound 0.77 the third guard already fires, because
0.77 - 1.0 is negative and hence below epsilon: index 6 is selected. -/
theorem bucketIdx_077 : bucketIdx (77/100) = some 6 := by
  unfold bucketIdx f64_EPSILON
  rw [abs_of_nonneg (by norm_num : (0:ℚ) ≤ 77/100)]
  norm_num

/-- Lookup at 0.05 succeeds when position 2 holds a bucket with that bound. -/
theorem get_bucket_005 {hist : Histogram} {b : Bucket}
    (hb : hist.bucket.get? 2 = some b) (hub : b.upper_bound = 5/100) :
    get_bucket hist (5/100) = .ok b := by
  unfold get_bucket
  rw [bucketIdx_005]
  simp only [hb, hub]
  rw [abs_of_nonneg (by norm_num : (0:ℚ) ≤ 5/100), if_pos (by norm_num [f64_EPSILON])]

/-- Lookup at 0.5 succeeds when position 5 holds a bucket with that bound. -/
theorem get_bucket_half {hist : Histogram} {b : Bucket}
    (hb : hist.bucket.get? 5 = some b) (hub : b.upper_bound = 5/10) :
    get_bucket hist (5/10) = .ok b := by
  unfold get_bucket
  rw [bucketIdx_half]
  simp only [hb, hub]
  rw [abs_of_nonneg (by norm_num : (0:ℚ) ≤ 5/10), if_pos (by norm_num [f64_EPSILON])]

/-- Lookup at 1.0 succeeds when position 6 holds a bucket with that bound. -/
theorem get_bucket_one {hist : Histogram} {b : Bucket}
    (hb : hist.bucket.get? 6 = some b) (hub : b.upper_bound = 1) :
    get_bucket hist 1 = .ok b := by
  unfold get_bucket
  rw [bucketIdx_one]
  simp only [hb, hub]
  rw [abs_of_nonneg (by norm_num : (0:ℚ) ≤ 1), if_pos (by norm_num [f64_EPSILON])]

/-- Lookup at 1.3 succeeds when position 7 holds a bucket with that bound. -/
theorem get_bucket_13 {hist : Histogram} {b : Bucket}
    (hb : hist.bucket.get? 7 = some b) (hub : b.upper_bound = 13/10) :
    get_bucket hist (13/10) = .ok b := by
  unfold get_bucket
  rw [bucketIdx_13]
  simp only [hb, hub]
  rw [abs_of_nonneg (by norm_num : (0:ℚ) ≤ 13/10), if_pos (by norm_num [f64_EPSILON])]

/-- On the scenario histogram, the noop-threshold lookup yields the 0.5 bucket
with cumulative count 40. -/
theorem get_bucket_scen_noop :
    get_bucket scenarioHistogram NOOP_CHUNK_APPLY_TIME = .ok ⟨5/10, 40⟩ :=
  get_bucket_half (by rfl) (by rfl)

/-- On the scenario histogram, the target-threshold lookup yields the 1.0
bucket with cumulative count 99. -/
theorem get_bucket_scen_target :
    get_bucket scenarioHistogram TARGET_CHUNK_APPLY_TIME = .ok ⟨1, 99⟩ :=
  get_bucket_one (by rfl) (by rfl)

/-- C1 counterexample: the claim fails as stated over every positive u64 gas
limit.  At gas limit 18428315757951600016 (a valid u64) with backlog 1 and a
0.6 second apply time, Strategy C takes the increase branch and the u64 sum
18428315757951600016 + 18428315757951600 is exactly 2 ^ 64, wrapping to 0,
which is not strictly positive. -/
theorem gas_limit_positive_cex :
    determine_new_gas_limit_3 18428315757951600016 1 (6/10) = 0 ∧
    ¬ 0 < determine_new_gas_limit_3 18428315757951600016 1 (6/10) := by
  have h : determine_new_gas_limit_3 18428315757951600016 1 (6/10) = 0 := by
    unfold determine_new_gas_limit_3
    rw [if_neg (by norm_num [TARGET_CHUNK_APPLY_TIME]),
      if_pos (by norm_num [LOAD_INDICATION_APPLY_TIME, TARGET_CHUNK_APPLY_TIME,
        TARGET_BACKOFF]),
      if_pos (by norm_num)]
    norm_num [GAS_LIMIT_ADJUSTMENT_FACTOR, U64_SIZE]
  exact ⟨h, by rw [h]; exact Nat.lt_irrefl 0⟩

/-- C1 (amended): for every strictly positive input gas limit whose increase
step does not overflow a u64 (g + g / 1000 < 2 ^ 64) and any signals
(histogram contents, delayed receipt gas, last apply time, height), each of
the three decision functions returns a strictly positive gas limit (for the
two histogram-based strategies: whenever the call returns a value at all). -/
theorem gas_limit_positive (g : Nat) (hist : Histogram) (height delayed : Nat)
    (secs : ℚ) (hg : 0 < g)
    (hno : g + g / GAS_LIMIT_ADJUSTMENT_FACTOR < U64_SIZE) :
    (∀ r, determine_new_gas_limit g hist height = some r → 0 < r) ∧
    (∀ r, determine_new_gas_limit_2 g hist delayed = some r → 0 < r) ∧
    0 < determine_new_gas_limit_3 g delayed secs := by
  have hsub := sub_step_pos g hg
  have hadd : 0 < (g + g / GAS_LIMIT_ADJUSTMENT_FACTOR) % U64_SIZE := by
    rw [Nat.mod_eq_of_lt hno]
    exact Nat.lt_of_lt_of_le hg (Nat.le_add_right _ _)
  refine ⟨fun r hr => ?_, fun r hr => ?_, ?_⟩
  · rcases determine_new_gas_limit_outcomes g hist height r hr with h | h | h <;>
      rw [h] <;> assumption
  · rcases determine_new_gas_limit_2_outcomes g hist delayed r hr with h | h | h <;>
      rw [h] <;> assumption
  · rcases determine_new_gas_limit_3_outcomes g delayed secs with h | h | h <;>
      rw [h] <;> assumption

theorem gas_limit_positive_witness :
    (∀ r, determine_new_gas_limit 7 scenarioHistogram 10 = some r → 0 < r) ∧
    (∀ r, determine_new_gas_limit_2 7 scenarioHistogram 3 = some r → 0 < r) ∧
    0 < determine_new_gas_limit_3 7 3 (96 / 100) :=
  gas_limit_positive 7 scenarioHistogram 10 3 (96 / 100) (by decide) (by decide)

/-- C2 counterexample: the claim fails as stated over every u64 gas limit.  At
gas limit 18428315757951600016 with backlog 1 and a 0.6 second apply time,
Strategy C takes the increase branch and the u64 sum wraps to 0, a result
that is neither the input, nor the input minus one step, nor the input plus
one step: the difference from the input is the whole input, not 0 and not one
proportional step. -/
theorem gas_limit_step_bound_cex :
    determine_new_gas_limit_3 18428315757951600016 1 (6/10) = 0 ∧
    ¬ ((0 : Nat) = 18428315757951600016 ∨
      (0 : Nat) = 18428315757951600016
        - 18428315757951600016 / GAS_LIMIT_ADJUSTMENT_FACTOR ∨
      (0 : Nat) = 18428315757951600016
        + 18428315757951600016 / GAS_LIMIT_ADJUSTMENT_FACTOR) := by
  constructor
  · unfold determine_new_gas_limit_3
    rw [if_neg (by norm_num [TARGET_CHUNK_APPLY_TIME]),
      if_pos (by norm_num [LOAD_INDICATION_APPLY_TIME, TARGET_CHUNK_APPLY_TIME,
        TARGET_BACKOFF]),
      if_pos (by norm_num)]
    norm_num [GAS_LIMIT_ADJUSTMENT_FACTOR, U64_SIZE]
  · intro hcon
    rcases hcon with h | h | h <;> revert h <;> decide

/-- C2 (amended): for every gas limit whose increase step does not overflow a
u64 (g + g / 1000 < 2 ^ 64), every decision changes the gas limit by exactly 0
or exactly one proportional step g / GAS_LIMIT_ADJUSTMENT_FACTOR (truncating
integer division), added for increase or subtracted for decrease, applied at
most once per call: the result is always one of g, g minus one step, g plus
one step. -/
theorem gas_limit_step_bound (g : Nat) (hist : Histogram) (height delayed : Nat)
    (secs : ℚ) (hno : g + g / GAS_LIMIT_ADJUSTMENT_FACTOR < U64_SIZE) :
    (∀ r, determine_new_gas_limit g hist height = some r →
      r = g ∨ r = g - g / GAS_LIMIT_ADJUSTMENT_FACTOR ∨
        r = g + g / GAS_LIMIT_ADJUSTMENT_FACTOR) ∧
    (∀ r, determine_new_gas_limit_2 g hist delayed = some r →
      r = g ∨ r = g - g / GAS_LIMIT_ADJUSTMENT_FACTOR ∨
        r = g + g / GAS_LIMIT_ADJUSTMENT_FACTOR) ∧
    (determine_new_gas_limit_3 g delayed secs = g ∨
      determine_new_gas_limit_3 g delayed secs = g - g / GAS_LIMIT_ADJUSTMENT_FACTOR ∨
      determine_new_gas_limit_3 g delayed secs = g + g / GAS_LIMIT_ADJUSTMENT_FACTOR) := by
  have hmod : (g + g / GAS_LIMIT_ADJUSTMENT_FACTOR) % U64_SIZE
      = g + g / GAS_LIMIT_ADJUSTMENT_FACTOR := Nat.mod_eq_of_lt hno
  refine ⟨fun r hr => ?_, fun r hr => ?_, ?_⟩
  · rw [← hmod]
    exact determine_new_gas_limit_outcomes g hist height r hr
  · rw [← hmod]
    exact determine_new_gas_limit_2_outcomes g hist delayed r hr
  · rw [← hmod]
    exact determine_new_gas_limit_3_outcomes g delayed secs

theorem gas_limit_step_bound_witness :
    123 = 123 ∨ 123 = 123 - 123 / GAS_LIMIT_ADJUSTMENT_FACTOR ∨
      123 = 123 + 123 / GAS_LIMIT_ADJUSTMENT_FACTOR :=
  (gas_limit_step_bound 123 scenarioHistogram 7 3 (96 / 100) (by decide)).1 123
    (by unfold determine_new_gas_limit; rw [if_pos (by decide)])

/-- C3: Strategy A is height-gated: for every height that is not an exact
multiple of GAS_LIMIT_ADJUSTMENT_INTERVAL (10) it returns the input gas limit
unchanged, regardless of the histogram contents. -/
theorem gate_purity (g : Nat) (hist : Histogram) (height : Nat)
    (h : height % GAS_LIMIT_ADJUSTMENT_INTERVAL ≠ 0) :
    determine_new_gas_limit g hist height = some g := by
  unfold determine_new_gas_limit
  rw [if_pos h]

theorem gate_purity_witness :
    determine_new_gas_limit 123 scenarioHistogram 7 = some 123 :=
  gate_purity 123 scenarioHistogram 7 (by decide)

/-- C4: an empty histogram (sample count 0, hence every cumulative count 0)
never causes a division fault — the 0/0 quotient is NaN and every threshold
comparison on it is false — so Strategy A at an eligible height and Strategy B
both leave the gas limit unchanged whenever they return a value at all. -/
theorem empty_histogram_noop (g : Nat) (hist : Histogram) (height delayed : Nat)
    (h0 : hist.sample_count = 0)
    (hc : ∀ b ∈ hist.bucket, b.cumulative_count = 0)
    (hh : height % GAS_LIMIT_ADJUSTMENT_INTERVAL = 0) :
    (∀ r, determine_new_gas_limit g hist height = some r → r = g) ∧
    (∀ r, determine_new_gas_limit_2 g hist delayed = some r → r = g) := by
  constructor
  · intro r hr
    unfold determine_new_gas_limit at hr
    rw [if_neg (by simp [hh])] at hr
    cases hb1 : get_bucket hist NOOP_CHUNK_APPLY_TIME with
    | ok bucket_noop =>
      cases hb2 : get_bucket hist TARGET_CHUNK_APPLY_TIME with
      | ok bucket =>
        have hc1 : bucket_noop.cumulative_count = 0 := hc _ (get_bucket_ok_mem hb1)
        have hc2 : bucket.cumulative_count = 0 := hc _ (get_bucket_ok_mem hb2)
        simp only [hb1, hb2, hc1, hc2, h0, fdiv, if_pos, FloatVal.lt, FloatVal.ge] at hr
        simp at hr
        omega
      | unsupportedThreshold => simp only [hb1, hb2] at hr; exact Option.noConfusion hr
      | missingBucket => simp only [hb1, hb2] at hr; exact Option.noConfusion hr
      | wrongBucket => simp only [hb1, hb2] at hr; exact Option.noConfusion hr
    | unsupportedThreshold => simp only [hb1] at hr; exact Option.noConfusion hr
    | missingBucket => simp only [hb1] at hr; exact Option.noConfusion hr
    | wrongBucket => simp only [hb1] at hr; exact Option.noConfusion hr
  · intro r hr
    unfold determine_new_gas_limit_2 at hr
    cases hb2 : get_bucket hist TARGET_CHUNK_APPLY_TIME with
    | ok target_bucket =>
      have hc2 : target_bucket.cumulative_count = 0 := hc _ (get_bucket_ok_mem hb2)
      simp only [hb2, hc2, h0, fdiv, if_pos, FloatVal.lt, FloatVal.gt] at hr
      simp at hr
      omega
    | unsupportedThreshold => simp only [hb2] at hr; exact Option.noConfusion hr
    | missingBucket => simp only [hb2] at hr; exact Option.noConfusion hr
    | wrongBucket => simp only [hb2] at hr; exact Option.noConfusion hr

theorem empty_histogram_noop_witness :
    (∀ r, determine_new_gas_limit 123 emptyHistogram 20 = some r → r = 123) ∧
    (∀ r, determine_new_gas_limit_2 123 emptyHistogram 999 = some r → r = 123) :=
  empty_histogram_noop 123 emptyHistogram 20 999 (by rfl) (by decide) (by decide)

/-- C5: requesting the unsupported upper bound 0.77 does NOT fail with the
unsupportedThreshold error the spec documents: the one-sided guard
`x.abs() - 1.0 < f64::EPSILON` is already true at 0.77, so the lookup resolves
the hardcoded index 6 (the 1.0 bucket) and then dies on the trailing
wrongBucket assertion instead. -/
theorem get_bucket_077_wrong_bucket :
    bucketIdx (77/100) = some 6 ∧
    get_bucket scenarioHistogram (77/100) = .wrongBucket ∧
    get_bucket scenarioHistogram (77/100) ≠ .unsupportedThreshold := by
  have h : get_bucket scenarioHistogram (77/100) = .wrongBucket := by
    unfold get_bucket
    rw [bucketIdx_077]
    simp only [show scenarioHistogram.bucket.get? 6 = some ⟨1, 99⟩ from rfl]
    rw [if_neg]
    norm_num [f64_EPSILON, abs_of_nonneg (by norm_num : (0:ℚ) ≤ 1)]
  exact ⟨bucketIdx_077, h, by rw [h]; intro hcon; exact GetBucketResult.noConfusion hcon⟩

/-- C6 counterexample: the increase conjunct of the claim fails as stated over
every u64 gas limit.  On a 100-sample histogram whose in-target ratio is 1
(above 0.99) with backlog 1, the claim promises one step up, but at gas limit
18428315757951600016 the u64 sum wraps and Strategy B returns 0, not the
input plus one step. -/
theorem backlog_aware_decision_cex :
    determine_new_gas_limit_2 18428315757951600016 saturatedHistogram 1 = some 0 ∧
    some (0 : Nat) ≠ some (18428315757951600016
      + 18428315757951600016 / GAS_LIMIT_ADJUSTMENT_FACTOR) := by
  constructor
  · have hbt : get_bucket saturatedHistogram TARGET_CHUNK_APPLY_TIME
        = .ok ⟨1, 100⟩ :=
      get_bucket_one (by rfl) (by rfl)
    unfold determine_new_gas_limit_2
    rw [hbt]
    simp only [fdiv, saturatedHistogram]
    norm_num [FloatVal.lt, FloatVal.gt, THRESHOLD_DECREASE, THRESHOLD_INCREASE,
      GAS_LIMIT_ADJUSTMENT_FACTOR, U64_SIZE]
  · intro hcon
    injection hcon with h
    revert h
    decide

/-- C6 (amended): Strategy B with a non-empty histogram, for every gas limit
whose increase step does not overflow a u64 (g + g / 1000 < 2 ^ 64): it
decreases by one step when the in-target ratio is below THRESHOLD_DECREASE
(0.99); otherwise it increases by one step exactly when the ratio exceeds
THRESHOLD_INCREASE (0.99) and the delayed-receipt backlog is positive;
otherwise it returns the input unchanged. -/
theorem backlog_aware_decision (g : Nat) (hist : Histogram) (delayed : Nat)
    (b : Bucket) (hb : get_bucket hist TARGET_CHUNK_APPLY_TIME = .ok b)
    (hs : 0 < hist.sample_count)
    (hno : g + g / GAS_LIMIT_ADJUSTMENT_FACTOR < U64_SIZE) :
    ((b.cumulative_count : ℚ) / (hist.sample_count : ℚ) < THRESHOLD_DECREASE →
      determine_new_gas_limit_2 g hist delayed
        = some (g - g / GAS_LIMIT_ADJUSTMENT_FACTOR)) ∧
    (¬ (b.cumulative_count : ℚ) / (hist.sample_count : ℚ) < THRESHOLD_DECREASE →
      THRESHOLD_INCREASE < (b.cumulative_count : ℚ) / (hist.sample_count : ℚ) →
      0 < delayed →
      determine_new_gas_limit_2 g hist delayed
        = some (g + g / GAS_LIMIT_ADJUSTMENT_FACTOR)) ∧
    (¬ (b.cumulative_count : ℚ) / (hist.sample_count : ℚ) < THRESHOLD_DECREASE →
      ¬ (THRESHOLD_INCREASE < (b.cumulative_count : ℚ) / (hist.sample_count : ℚ) ∧
          0 < delayed) →
      determine_new_gas_limit_2 g hist delayed = some g) := by
  have hne : hist.sample_count ≠ 0 := Nat.pos_iff_ne_zero.mp hs
  have hfd : fdiv b.cumulative_count hist.sample_count
      = .val ((b.cumulative_count : ℚ) / (hist.sample_count : ℚ)) := by
    unfold fdiv
    rw [if_neg hne]
  unfold determine_new_gas_limit_2
  simp only [hb, hfd, FloatVal.lt, FloatVal.gt, decide_eq_true_eq]
  refine ⟨fun h1 => ?_, fun h1 h2 h3 => ?_, fun h1 h2 => ?_⟩
  · rw [if_pos h1]
  · rw [if_neg h1, if_pos ⟨h2, h3⟩, Nat.mod_eq_of_lt hno]
  · rw [if_neg h1, if_neg h2]

theorem backlog_aware_decision_witness :
    ((((⟨1, 99⟩ : Bucket).cumulative_count : ℚ)
        / (scenarioHistogram.sample_count : ℚ) < THRESHOLD_DECREASE →
      determine_new_gas_limit_2 5 scenarioHistogram 3
        = some (5 - 5 / GAS_LIMIT_ADJUSTMENT_FACTOR)) ∧
    (¬ (((⟨1, 99⟩ : Bucket).cumulative_count : ℚ)
        / (scenarioHistogram.sample_count : ℚ)) < THRESHOLD_DECREASE →
      THRESHOLD_INCREASE < ((⟨1, 99⟩ : Bucket).cumulative_count : ℚ)
        / (scenarioHistogram.sample_count : ℚ) →
      0 < 3 →
      determine_new_gas_limit_2 5 scenarioHistogram 3
        = some (5 + 5 / GAS_LIMIT_ADJUSTMENT_FACTOR)) ∧
    (¬ (((⟨1, 99⟩ : Bucket).cumulative_count : ℚ)
        / (scenarioHistogram.sample_count : ℚ)) < THRESHOLD_DECREASE →
      ¬ (THRESHOLD_INCREASE < ((⟨1, 99⟩ : Bucket).cumulative_count : ℚ)
          / (scenarioHistogram.sample_count : ℚ) ∧ 0 < 3) →
      determine_new_gas_limit_2 5 scenarioHistogram 3 = some 5)) :=
  backlog_aware_decision 5 scenarioHistogram 3 ⟨1, 99⟩ get_bucket_scen_target
    (by decide) (by decide)

/-- C7: Scenario 2 of the spec: gas limit 1_000_000_000, adjustment factor
1000, histogram with 100 samples, 40 at or below 0.5s and 99 at or below 1.0s.
At any height that is a multiple of 10, Strategy A takes the increase branch
(99/100 is not below 0.99, 40/100 is below 0.5, 99/100 is at least 0.99) and
returns exactly 1_001_000_000. -/
theorem scenario_two_increase (height : Nat)
    (hh : height % GAS_LIMIT_ADJUSTMENT_INTERVAL = 0) :
    determine_new_gas_limit 1000000000 scenarioHistogram height
      = some 1001000000 := by
  unfold determine_new_gas_limit
  rw [if_neg (by simp [hh])]
  rw [get_bucket_scen_noop, get_bucket_scen_target]
  simp only [fdiv, scenarioHistogram]
  norm_num [FloatVal.lt, FloatVal.ge, THRESHOLD_DECREASE, THRESHOLD_NOOP,
    THRESHOLD_INCREASE, GAS_LIMIT_ADJUSTMENT_FACTOR, U64_SIZE]

theorem scenario_two_increase_witness :
    determine_new_gas_limit 1000000000 scenarioHistogram 10 = some 1001000000 :=
  scenario_two_increase 10 (by decide)

/-- C8: Strategy C at a last apply time of 0.96 seconds with a positive
delayed-receipt backlog is a no-op: 0.96 does not exceed the 1.0s target, but
it exceeds TARGET_CHUNK_APPLY_TIME - TARGET_BACKOFF = 0.95, so the upper bound
of the increase condition fails and the backoff margin suppresses the
adjustment. -/
theorem backoff_margin_noop (g delayed : Nat) (_hd : 0 < delayed) :
    determine_new_gas_limit_3 g delayed (96/100) = g := by
  unfold determine_new_gas_limit_3
  rw [if_neg (by norm_num [TARGET_CHUNK_APPLY_TIME]),
    if_neg (by norm_num [LOAD_INDICATION_APPLY_TIME, TARGET_CHUNK_APPLY_TIME,
      TARGET_BACKOFF])]

theorem backoff_margin_noop_witness :
    determine_new_gas_limit_3 5 1 (96/100) = 5 :=
  backoff_margin_noop 5 1 (by decide)

/-- C9: a strictly positive gas limit smaller than
GAS_LIMIT_ADJUSTMENT_FACTOR can never be adjusted: the proportional step
truncates to 0 in integer division, so all three decision functions return the
input unchanged for every combination of signals (whenever they return a value
at all). -/
theorem small_gas_limit_frozen (g : Nat) (_hg : 0 < g)
    (hlt : g < GAS_LIMIT_ADJUSTMENT_FACTOR) (hist : Histogram)
    (height delayed : Nat) (secs : ℚ) :
    (∀ r, determine_new_gas_limit g hist height = some r → r = g) ∧
    (∀ r, determine_new_gas_limit_2 g hist delayed = some r → r = g) ∧
    determine_new_gas_limit_3 g delayed secs = g := by
  have hstep : g / GAS_LIMIT_ADJUSTMENT_FACTOR = 0 := Nat.div_eq_of_lt hlt
  have hu : g < U64_SIZE :=
    Nat.lt_trans hlt (by norm_num [GAS_LIMIT_ADJUSTMENT_FACTOR, U64_SIZE])
  refine ⟨fun r hr => ?_, fun r hr => ?_, ?_⟩
  · rcases determine_new_gas_limit_outcomes g hist height r hr with h | h | h <;>
      rw [h] <;> simp [hstep, Nat.mod_eq_of_lt hu]
  · rcases determine_new_gas_limit_2_outcomes g hist delayed r hr with h | h | h <;>
      rw [h] <;> simp [hstep, Nat.mod_eq_of_lt hu]
  · rcases determine_new_gas_limit_3_outcomes g delayed secs with h | h | h <;>
      rw [h] <;> simp [hstep, Nat.mod_eq_of_lt hu]

theorem small_gas_limit_frozen_witness :
    (∀ r, determine_new_gas_limit 999 scenarioHistogram 10 = some r → r = 999) ∧
    (∀ r, determine_new_gas_limit_2 999 scenarioHistogram 3 = some r → r = 999) ∧
    determine_new_gas_limit_3 999 3 (96/100) = 999 :=
  small_gas_limit_frozen 999 (by decide) (by decide) scenarioHistogram 10 3 (96/100)

/-- C10: each supported upper bound in 0.05, 0.5, 1.0, 1.3 resolves to its own
bucket: on a histogram whose positions 2, 5, 6, 7 carry exactly those upper
bounds, the one-sided guards are tested in increasing order of bound, so an
exactly supported value matches its own bound first and the trailing assertion
passes, returning the bucket whose upper bound equals the request. -/
theorem supported_bounds_resolve (hist : Histogram) (b2 b5 b6 b7 : Bucket)
    (h2 : hist.bucket.get? 2 = some b2) (hub2 : b2.upper_bound = 5/100)
    (h5 : hist.bucket.get? 5 = some b5) (hub5 : b5.upper_bound = 5/10)
    (h6 : hist.bucket.get? 6 = some b6) (hub6 : b6.upper_bound = 1)
    (h7 : hist.bucket.get? 7 = some b7) (hub7 : b7.upper_bound = 13/10) :
    get_bucket hist (5/100) = .ok b2 ∧ get_bucket hist (5/10) = .ok b5 ∧
    get_bucket hist 1 = .ok b6 ∧ get_bucket hist (13/10) = .ok b7 :=
  ⟨get_bucket_005 h2 hub2, get_bucket_half h5 hub5,
   get_bucket_one h6 hub6, get_bucket_13 h7 hub7⟩

theorem supported_bounds_resolve_witness :
    get_bucket scenarioHistogram (5/100) = .ok ⟨5/100, 0⟩ ∧
    get_bucket scenarioHistogram (5/10) = .ok ⟨5/10, 40⟩ ∧
    get_bucket scenarioHistogram 1 = .ok ⟨1, 99⟩ ∧
    get_bucket scenarioHistogram (13/10) = .ok ⟨13/10, 100⟩ :=
  supported_bounds_resolve scenarioHistogram ⟨5/100, 0⟩ ⟨5/10, 40⟩ ⟨1, 99⟩
    ⟨13/10, 100⟩ rfl rfl rfl rfl rfl rfl rfl rfl
